import Mathlib

/-!
Verification of the lunar phase annotation core of the `star` repository.

The Python source computes with IEEE floats; the embedding below uses exact
rational arithmetic (`ℚ`), which is the arithmetic the specification's
properties are stated in ("holds exactly modulo floating rounding").
All decimal literals of the source are exact rationals, so every definition
here mirrors its source function term by term.
-/

/-- Python 3 `int()` applied to a real value: truncation toward zero. -/
def pytrunc (q : ℚ) : ℤ := if 0 ≤ q then ⌊q⌋ else ⌈q⌉

/-- Python `x % n` for a positive modulus `n`: the result `x - n*⌊x/n⌋`
lies in `[0, n)` and follows the sign of the divisor. -/
def pymod (x n : ℚ) : ℚ := x - n * ⌊x / n⌋

/-- Rounding to two decimals, used by the annotator for the two angle fields.
Python's `round` is round-half-to-even; `round` here is round-half-up.  The
two agree except at exact ties `x*100 + 1/2 ∈ ℤ`, and no claim touches a tie. -/
def round2 (x : ℚ) : ℚ := (round (x * 100) : ℚ) / 100

namespace phase_symmetry_offline

/-- Embedding of `julian_day(year, month, day)` of `phase_symmetry_offline.py` (lines 12-20).
The in-place mutation `year -= 1; month += 12` of the `month <= 2` branch is
expressed by the two `if` bindings. -/
def julian_day (year month day : ℤ) : ℚ :=
  let y : ℤ := if month ≤ 2 then year - 1 else year
  let m : ℤ := if month ≤ 2 then month + 12 else month
  let A : ℤ := pytrunc ((y : ℚ) / 100)
  let B : ℤ := 2 - A + pytrunc ((A : ℚ) / 4)
  (pytrunc ((365.25 : ℚ) * ((y : ℚ) + 4716)) : ℚ)
    + (pytrunc ((30.6001 : ℚ) * ((m : ℚ) + 1)) : ℚ)
    + (day : ℚ) + (B : ℚ) - 1524.5

/-- The unreduced mean solar longitude series of line 31 (the expression
inside the `% 360`). -/
def sun_mean_longitude (jd : ℚ) : ℚ :=
  let T := (jd - 2451545.0) / 36525.0
  280.46646 + T * (36000.76983 + 0.0003032 * T)

/-- The unreduced mean lunar longitude series of line 32 (the expression
inside the `% 360`). -/
def moon_mean_longitude (jd : ℚ) : ℚ :=
  let T := (jd - 2451545.0) / 36525.0
  218.3164477 + T * (481267.88123421 - 0.0015786 * T)

/-- Embedding of `lunar_phase_angle(jd)` of `phase_symmetry_offline.py` (lines 22-35). -/
def lunar_phase_angle (jd : ℚ) : ℚ :=
  let T := (jd - 2451545.0) / 36525.0
  let sunL := pymod (280.46646 + T * (36000.76983 + 0.0003032 * T)) 360
  let moonL := pymod (218.3164477 + T * (481267.88123421 - 0.0015786 * T)) 360
  pymod (moonL - sunL) 360

/-- Embedding of `assign_nayin_hexagram(phi)` of `phase_symmetry_offline.py` (lines 37-67):
first matching window of the `bounds` dict in its insertion order, each
tested `low <= phi <= high`. -/
def assign_nayin_hexagram (phi : ℚ) : Option String × Option String :=
  if 15 ≤ phi ∧ phi ≤ 45 then (some "震", some "庚")
  else if 75 ≤ phi ∧ phi ≤ 105 then (some "兑", some "丁")
  else if 165 ≤ phi ∧ phi ≤ 195 then (some "乾", some "甲")
  else if 255 ≤ phi ∧ phi ≤ 285 then (some "艮", some "丙")
  else if 215 ≤ phi ∧ phi ≤ 245 then (some "巽", some "辛")
  else if 315 ≤ phi ∧ phi ≤ 345 then (some "坤", some "乙")
  else (none, none)

/-- Embedding of `is_evening_or_morning_simplified(phase_angle)` of
`phase_symmetry_offline.py` (lines 69-87). -/
def is_evening_or_morning_simplified (phase_angle : ℚ) : String :=
  if 350 < phase_angle ∨ phase_angle < 10 then "none"
  else if 170 ≤ phase_angle ∧ phase_angle ≤ 190 then "both"
  else if phase_angle < 180 then "evening"
  else "morning"

/-- The symmetry offset computed on line 104:
`sym_offset = ((phi - 180 + 180) % 360) - 180` (identical on line 132 of
`phase_symmetry.py`). -/
def symmetry_offset (phi : ℚ) : ℚ := pymod (phi - 180 + 180) 360 - 180

/-- The output record of `annotate_lunar_state` (lines 116-125).  The
`date` string field (a `strftime` of the input) is omitted: it is pure
formatting of the input and no claim concerns it. -/
structure LunarStateRecord where
  phase_angle : ℚ
  sym_offset_from_full : ℚ
  hexagram : Option String
  tiangan : Option String
  visibility : String
  is_pivot : Bool
  cycle_half : String
deriving DecidableEq, Repr

/-- Embedding of `annotate_lunar_state(date_utc)` of `phase_symmetry_offline.py`
(lines 89-125), taking the date as its `(year, month, day)` components. -/
def annotate_lunar_state (year month day : ℤ) : LunarStateRecord :=
  let jd := julian_day year month day
  let phi := lunar_phase_angle jd
  let sym_offset := symmetry_offset phi
  let h := assign_nayin_hexagram phi
  let visibility := is_evening_or_morning_simplified phi
  let is_pivot : Bool :=
    if 165 ≤ phi ∧ phi ≤ 195 then true
    else if phi ≤ 15 ∨ 345 ≤ phi then true
    else false
  { phase_angle := round2 phi
    sym_offset_from_full := round2 sym_offset
    hexagram := h.1
    tiangan := h.2
    visibility := visibility
    is_pivot := is_pivot
    cycle_half := if phi < 180 then "upper" else "lower" }

end phase_symmetry_offline

namespace phase_symmetry

/-- Embedding of `assign_nayin_hexagram(phi)` of `phase_symmetry.py` (lines 33-67), the
ephemeris-backed variant's window table.  Note the `kun` row `(345, 15)` is
tested, like every other row, as `low <= phi <= high`, i.e.
`345 ≤ phi ∧ phi ≤ 15`. -/
def assign_nayin_hexagram (phi : ℚ) : Option String × Option String :=
  if 30 ≤ phi ∧ phi ≤ 60 then (some "震", some "辛")
  else if 120 ≤ phi ∧ phi ≤ 150 then (some "兑", some "丁")
  else if 165 ≤ phi ∧ phi ≤ 195 then (some "乾", some "甲")
  else if 210 ≤ phi ∧ phi ≤ 240 then (some "艮", some "丙")
  else if 300 ≤ phi ∧ phi ≤ 330 then (some "巽", some "癸")
  else if 345 ≤ phi ∧ phi ≤ 15 then (some "坤", some "乙")
  else (none, none)

end phase_symmetry

/-- Proleptic-Gregorian leap year (spec §3: dates are proleptic Gregorian). -/
def isLeap (y : ℤ) : Prop := (y % 4 = 0 ∧ ¬ y % 100 = 0) ∨ y % 400 = 0

instance (y : ℤ) : Decidable (isLeap y) :=
  decidable_of_iff ((y % 4 = 0 ∧ ¬ y % 100 = 0) ∨ y % 400 = 0) Iff.rfl

/-- Number of days of month `m` of proleptic-Gregorian year `y`. -/
def daysInMonth (y m : ℤ) : ℤ :=
  if m = 2 then (if isLeap y then 29 else 28)
  else if m = 4 ∨ m = 6 ∨ m = 9 ∨ m = 11 then 30
  else 31

/-- A valid calendar date: month in 1-12, day valid for that month. -/
def ValidDate (y m d : ℤ) : Prop :=
  1 ≤ m ∧ m ≤ 12 ∧ 1 ≤ d ∧ d ≤ daysInMonth y m

instance (y m d : ℤ) : Decidable (ValidDate y m d) :=
  decidable_of_iff (1 ≤ m ∧ m ≤ 12 ∧ 1 ≤ d ∧ d ≤ daysInMonth y m) Iff.rfl

/-- Calendar order: `(y1,m1,d1)` is an earlier date than `(y2,m2,d2)`. -/
def DateEarlier (y1 m1 d1 y2 m2 d2 : ℤ) : Prop :=
  y1 < y2 ∨ (y1 = y2 ∧ (m1 < m2 ∨ (m1 = m2 ∧ d1 < d2)))

instance (y1 m1 d1 y2 m2 d2 : ℤ) : Decidable (DateEarlier y1 m1 d1 y2 m2 d2) :=
  decidable_of_iff (y1 < y2 ∨ (y1 = y2 ∧ (m1 < m2 ∨ (m1 = m2 ∧ d1 < d2)))) Iff.rfl

/-- The adjusted year of the `month <= 2` branch of `julian_day`. -/
def adjY (year month : ℤ) : ℤ := if month ≤ 2 then year - 1 else year

/-- The adjusted month of the `month <= 2` branch of `julian_day`. -/
def adjM (month : ℤ) : ℤ := if month ≤ 2 then month + 12 else month

/-- The `int(30.6001 * (month + 1))` term of `julian_day`. -/
def monthTerm (k : ℤ) : ℤ := pytrunc ((30.6001 : ℚ) * ((k : ℚ) + 1))

/-- The year-dependent integer part of `julian_day`:
`365*y + ⌊y/4⌋ - ⌊y/100⌋ + ⌊y/400⌋` (for nonnegative adjusted years). -/
def jdYearTerm (n : ℤ) : ℤ := 365 * n + n / 4 - n / 100 + n / 400

/-! ### Arithmetic toolkit for `pymod` -/

lemma pymod_nonneg (x : ℚ) {n : ℚ} (hn : 0 < n) : 0 ≤ pymod x n := by
  unfold pymod
  have h := Int.floor_le (x / n)
  have h2 : n * (⌊x / n⌋ : ℚ) ≤ n * (x / n) := mul_le_mul_of_nonneg_left h hn.le
  have hx : n * (x / n) = x := by field_simp
  linarith

lemma pymod_lt (x : ℚ) {n : ℚ} (hn : 0 < n) : pymod x n < n := by
  unfold pymod
  have h := Int.lt_floor_add_one (x / n)
  have h2 : n * (x / n) < n * ((⌊x / n⌋ : ℚ) + 1) := (mul_lt_mul_left hn).mpr h
  have hx : n * (x / n) = x := by field_simp
  have h3 : n * ((⌊x / n⌋ : ℚ) + 1) = n * (⌊x / n⌋ : ℚ) + n := by ring
  linarith

lemma pymod_eq_self {x n : ℚ} (h0 : 0 ≤ x) (h1 : x < n) : pymod x n = x := by
  have hn : 0 < n := lt_of_le_of_lt h0 h1
  unfold pymod
  have hz : ⌊x / n⌋ = 0 := by
    rw [Int.floor_eq_zero_iff, Set.mem_Ico]
    exact ⟨div_nonneg h0 hn.le, (div_lt_one hn).mpr h1⟩
  rw [hz]
  push_cast
  ring

lemma pymod_add_int_mul (x : ℚ) {n : ℚ} (hn : n ≠ 0) (k : ℤ) :
    pymod (x + n * (k : ℚ)) n = pymod x n := by
  unfold pymod
  have h : (x + n * (k : ℚ)) / n = x / n + (k : ℚ) := by
    field_simp
    ring
  rw [h, Int.floor_add_int]
  push_cast
  ring

lemma pymod_sub_pymod (a b : ℚ) {n : ℚ} (hn : n ≠ 0) :
    pymod (pymod a n - pymod b n) n = pymod (a - b) n := by
  have h : pymod a n - pymod b n = (a - b) + n * ((⌊b / n⌋ - ⌊a / n⌋ : ℤ) : ℚ) := by
    unfold pymod
    push_cast
    ring
  rw [h, pymod_add_int_mul _ hn]

lemma pymod_eq_mul_fract (x : ℚ) {n : ℚ} (hn : n ≠ 0) :
    pymod x n = n * Int.fract (x / n) := by
  unfold pymod Int.fract
  rw [mul_sub]
  congr 1
  field_simp

lemma symmetry_offset_eq (phi : ℚ) :
    phase_symmetry_offline.symmetry_offset phi = pymod phi 360 - 180 := by
  unfold phase_symmetry_offline.symmetry_offset
  have h : phi - 180 + 180 = phi := by ring
  rw [h]

/-! ### Claim C3 -/

/-- C3: for `phi ∈ [0, 360)` the symmetry offset of line 104 lies in
`[-180, 180)` (the claim's `(-180, 180]` is wrong at `phi = 0`), and is `0`
exactly at `phi = 180`. -/
theorem c3_offset_range_amended (phi : ℚ) (h0 : 0 ≤ phi) (h1 : phi < 360) :
    -180 ≤ phase_symmetry_offline.symmetry_offset phi ∧
    phase_symmetry_offline.symmetry_offset phi < 180 ∧
    (phase_symmetry_offline.symmetry_offset phi = 0 ↔ phi = 180) := by
  rw [symmetry_offset_eq, pymod_eq_self h0 h1]
  refine ⟨by linarith, by linarith, ?_⟩
  constructor <;> intro h <;> linarith

/-- C3 witness: the amended statement instantiated at `phi = 180`. -/
theorem c3_offset_range_witness :
    -180 ≤ phase_symmetry_offline.symmetry_offset 180 ∧
    phase_symmetry_offline.symmetry_offset 180 < 180 ∧
    (phase_symmetry_offline.symmetry_offset 180 = 0 ↔ (180 : ℚ) = 180) :=
  c3_offset_range_amended 180 (by norm_num) (by norm_num)

/-- C3 counterexample: `phi = 0` is in `[0, 360)` yet its offset is `-180`,
which is not in the claimed half-open range `(-180, 180]`. -/
theorem c3_offset_range_counterexample :
    (0 : ℚ) ≤ 0 ∧ (0 : ℚ) < 360 ∧
    phase_symmetry_offline.symmetry_offset 0 = -180 ∧
    phase_symmetry_offline.symmetry_offset 0 ≤ -180 := by
  norm_num [phase_symmetry_offline.symmetry_offset, pymod]

/-! ### Claim C1 -/

/-- C1: the reflection identity `SymmetryOffset(180+d) = -SymmetryOffset(180-d)`
holds in exact arithmetic for every `d` except those with `d ≡ 180 (mod 360)`
(where the two sides are `-180` and `180`). -/
theorem c1_reflection_amended (d : ℚ) (h : pymod d 360 ≠ 180) :
    phase_symmetry_offline.symmetry_offset (180 + d) =
      - phase_symmetry_offline.symmetry_offset (180 - d) := by
  have h360 : (360 : ℚ) ≠ 0 := by norm_num
  have hfr : Int.fract ((180 + d) / 360) ≠ 0 := by
    intro hfr0
    apply h
    have h0 : pymod (180 + d) 360 = 0 := by
      rw [pymod_eq_mul_fract _ h360, hfr0, mul_zero]
    unfold pymod at h0
    have hd : d = 180 + 360 * ((⌊(180 + d) / 360⌋ - 1 : ℤ) : ℚ) := by
      push_cast
      linarith
    rw [hd, pymod_add_int_mul _ h360, pymod_eq_self (by norm_num) (by norm_num)]
  have key : Int.fract ((180 - d) / 360) = 1 - Int.fract ((180 + d) / 360) := by
    have e : (180 - d) / 360 = -((180 + d) / 360) + ((1 : ℤ) : ℚ) := by
      push_cast
      ring
    rw [e, Int.fract_add_int, Int.fract_neg hfr]
  rw [symmetry_offset_eq, symmetry_offset_eq,
    pymod_eq_mul_fract _ h360, pymod_eq_mul_fract _ h360, key]
  ring

/-- C1 witness: the amended identity instantiated at `d = 90`. -/
theorem c1_reflection_witness :
    phase_symmetry_offline.symmetry_offset (180 + 90) =
      - phase_symmetry_offline.symmetry_offset (180 - 90) :=
  c1_reflection_amended 90 (by norm_num [pymod])

/-- C1 counterexample: at `d = 180` the two sides are `-180` and `180`, so
the claimed identity fails (`-180 < 180`). -/
theorem c1_reflection_counterexample :
    phase_symmetry_offline.symmetry_offset (180 + 180) = -180 ∧
    - phase_symmetry_offline.symmetry_offset (180 - 180) = 180 ∧
    phase_symmetry_offline.symmetry_offset (180 + 180) <
      - phase_symmetry_offline.symmetry_offset (180 - 180) := by
  norm_num [phase_symmetry_offline.symmetry_offset, pymod]

/-! ### Record projection lemmas for the annotator -/

open phase_symmetry_offline

lemma annotate_hexagram (y m d : ℤ) :
    (annotate_lunar_state y m d).hexagram =
      (assign_nayin_hexagram (lunar_phase_angle (julian_day y m d))).1 := rfl

lemma annotate_tiangan (y m d : ℤ) :
    (annotate_lunar_state y m d).tiangan =
      (assign_nayin_hexagram (lunar_phase_angle (julian_day y m d))).2 := rfl

lemma annotate_is_pivot (y m d : ℤ) :
    (annotate_lunar_state y m d).is_pivot =
      (if 165 ≤ lunar_phase_angle (julian_day y m d) ∧
            lunar_phase_angle (julian_day y m d) ≤ 195 then true
       else if lunar_phase_angle (julian_day y m d) ≤ 15 ∨
            345 ≤ lunar_phase_angle (julian_day y m d) then true
       else false) := rfl

lemma annotate_cycle_half (y m d : ℤ) :
    (annotate_lunar_state y m d).cycle_half =
      (if lunar_phase_angle (julian_day y m d) < 180 then "upper" else "lower") := rfl

lemma annotate_phase_angle (y m d : ℤ) :
    (annotate_lunar_state y m d).phase_angle =
      round2 (lunar_phase_angle (julian_day y m d)) := rfl

lemma annotate_visibility (y m d : ℤ) :
    (annotate_lunar_state y m d).visibility =
      is_evening_or_morning_simplified (lunar_phase_angle (julian_day y m d)) := rfl

/-! ### Claim C2 -/

/-- C2 evidence: at the seam both `phi = 0` and `phi = 360` fall outside every
window of both variants, so `assign_nayin_hexagram` returns `(None, None)` and
not the claimed kun pair: in `phase_symmetry.py` the kun row `(345, 15)` is
tested as `345 ≤ phi ∧ phi ≤ 15`, which no `phi` satisfies, and in
`phase_symmetry_offline.py` the kun window `(315, 345)` does not touch the
seam at all. -/
theorem c2_seam_eval :
    phase_symmetry.assign_nayin_hexagram 0 = (none, none) ∧
    phase_symmetry.assign_nayin_hexagram 360 = (none, none) ∧
    phase_symmetry_offline.assign_nayin_hexagram 0 = (none, none) ∧
    phase_symmetry_offline.assign_nayin_hexagram 360 = (none, none) := by
  refine ⟨?_, ?_, ?_, ?_⟩ <;>
    norm_num [phase_symmetry.assign_nayin_hexagram,
      phase_symmetry_offline.assign_nayin_hexagram]

/-! ### Claim C10 -/

lemma assign_none_iff (phi : ℚ) :
    ((assign_nayin_hexagram phi).1 = none ↔ (assign_nayin_hexagram phi).2 = none) := by
  unfold assign_nayin_hexagram
  split_ifs <;> simp

/-- C10: in every record produced by the offline annotator the hexagram field
is null exactly when the tiangan field is null: the classifier only returns
fully-populated pairs or `(None, None)`. -/
theorem c10_hexagram_tiangan_null_together (y m d : ℤ) :
    ((annotate_lunar_state y m d).hexagram = none ↔
     (annotate_lunar_state y m d).tiangan = none) := by
  rw [annotate_hexagram, annotate_tiangan]
  exact assign_none_iff _

/-! ### Claim C9 -/

lemma assign_qian_range {phi : ℚ}
    (h : (assign_nayin_hexagram phi).1 = some "乾") : 165 ≤ phi ∧ phi ≤ 195 := by
  unfold assign_nayin_hexagram at h
  split_ifs at h with h1 h2 h3 h4 h5 h6 <;> simp_all

/-- C9: whenever the offline annotator reports hexagram `乾`, the pivot flag
is set: the qian window `[165, 195]` coincides with the full-moon pivot band
`165 ≤ phi ≤ 195`. -/
theorem c9_qian_implies_pivot (y m d : ℤ)
    (h : (annotate_lunar_state y m d).hexagram = some "乾") :
    (annotate_lunar_state y m d).is_pivot = true := by
  rw [annotate_hexagram] at h
  rw [annotate_is_pivot, if_pos (assign_qian_range h)]

/-- C9 witness: on 727-03-16 the annotator reports `乾`, and the theorem
yields the pivot flag. -/
theorem c9_qian_implies_pivot_witness :
    (annotate_lunar_state 727 3 16).hexagram = some "乾" ∧
    (annotate_lunar_state 727 3 16).is_pivot = true := by
  have hjd : julian_day 727 3 16 = 3973329 / 2 := by
    unfold julian_day pytrunc
    norm_num
  have hphi : lunar_phase_angle (julian_day 727 3 16) =
      9391970241342281317 / 53363025000000000 := by
    rw [hjd]
    unfold lunar_phase_angle pymod
    norm_num
  have hhex : (annotate_lunar_state 727 3 16).hexagram = some "乾" := by
    rw [annotate_hexagram, hphi]
    norm_num [assign_nayin_hexagram]
  exact ⟨hhex, c9_qian_implies_pivot 727 3 16 hhex⟩

/-! ### Claim C7 -/

lemma window_not {a b x : ℚ} (h : ¬(a ≤ x ∧ x ≤ b)) : x < a ∨ b < x := by
  rw [not_and_or, not_le, not_le] at h
  exact h

/-- C7: the offline classifier returns `(None, None)` exactly when `phi`
falls outside all six windows, and gaps exist: `phi = 60` lies strictly
between the zhen window `(15, 45)` and the dui window `(75, 105)` and
matches no window. -/
theorem c7_gap_characterization :
    (∀ phi : ℚ, assign_nayin_hexagram phi = (none, none) ↔
      ((phi < 15 ∨ 45 < phi) ∧ (phi < 75 ∨ 105 < phi) ∧ (phi < 165 ∨ 195 < phi) ∧
       (phi < 255 ∨ 285 < phi) ∧ (phi < 215 ∨ 245 < phi) ∧ (phi < 315 ∨ 345 < phi))) ∧
    assign_nayin_hexagram 60 = (none, none) ∧ (45 : ℚ) < 60 ∧ (60 : ℚ) < 75 := by
  refine ⟨?_, ?_, by norm_num, by norm_num⟩
  · intro phi
    unfold assign_nayin_hexagram
    split_ifs with h1 h2 h3 h4 h5 h6
    · exact iff_of_false (by simp)
        (by rintro ⟨hA, -⟩; rcases hA with h | h <;> linarith [h1.1, h1.2])
    · exact iff_of_false (by simp)
        (by rintro ⟨-, hB, -⟩; rcases hB with h | h <;> linarith [h2.1, h2.2])
    · exact iff_of_false (by simp)
        (by rintro ⟨-, -, hC, -⟩; rcases hC with h | h <;> linarith [h3.1, h3.2])
    · exact iff_of_false (by simp)
        (by rintro ⟨-, -, -, hD, -⟩; rcases hD with h | h <;> linarith [h4.1, h4.2])
    · exact iff_of_false (by simp)
        (by rintro ⟨-, -, -, -, hE, -⟩; rcases hE with h | h <;> linarith [h5.1, h5.2])
    · exact iff_of_false (by simp)
        (by rintro ⟨-, -, -, -, -, hF⟩; rcases hF with h | h <;> linarith [h6.1, h6.2])
    · exact iff_of_true rfl ⟨window_not h1, window_not h2, window_not h3,
        window_not h4, window_not h5, window_not h6⟩
  · norm_num [assign_nayin_hexagram]

/-! ### Claim C5 -/

/-- C5: characterization of the simplified visibility classifier on
`[0, 360)`.  The `none` band is strict (`phi < 10` or `phi > 350`), not the
claimed inclusive `phi ≤ 10` / `phi ≥ 350`. -/
theorem c5_visibility_amended (phi : ℚ) (h0 : 0 ≤ phi) (h1 : phi < 360) :
    (is_evening_or_morning_simplified phi = "none" ↔ (phi < 10 ∨ 350 < phi)) ∧
    (is_evening_or_morning_simplified phi = "both" ↔ (170 ≤ phi ∧ phi ≤ 190)) ∧
    (is_evening_or_morning_simplified phi = "evening" ↔ (10 ≤ phi ∧ phi < 170)) ∧
    (is_evening_or_morning_simplified phi = "morning" ↔ (190 < phi ∧ phi ≤ 350)) := by
  unfold is_evening_or_morning_simplified
  split_ifs with hA hB hC
  · refine ⟨iff_of_true rfl ?_, iff_of_false (by simp) ?_, iff_of_false (by simp) ?_,
      iff_of_false (by simp) ?_⟩
    · rcases hA with h | h
      · exact Or.inr h
      · exact Or.inl h
    · rintro ⟨hl, hr⟩
      rcases hA with h | h <;> linarith
    · rintro ⟨hl, hr⟩
      rcases hA with h | h <;> linarith
    · rintro ⟨hl, hr⟩
      rcases hA with h | h <;> linarith
  · push_neg at hA
    refine ⟨iff_of_false (by simp) ?_, iff_of_true rfl hB, iff_of_false (by simp) ?_,
      iff_of_false (by simp) ?_⟩
    · rintro (h | h) <;> linarith [hA.1, hA.2]
    · rintro ⟨hl, hr⟩
      linarith [hB.1]
    · rintro ⟨hl, hr⟩
      linarith [hB.2]
  · push_neg at hA hB
    refine ⟨iff_of_false (by simp) ?_, iff_of_false (by simp) ?_, iff_of_true rfl ?_,
      iff_of_false (by simp) ?_⟩
    · rintro (h | h) <;> linarith [hA.1, hA.2]
    · rintro ⟨hl, hr⟩
      linarith [hB hl]
    · refine ⟨hA.2, ?_⟩
      by_contra hc
      push_neg at hc
      linarith [hB hc]
    · rintro ⟨hl, hr⟩
      linarith
  · push_neg at hA hB hC
    refine ⟨iff_of_false (by simp) ?_, iff_of_false (by simp) ?_, iff_of_false (by simp) ?_,
      iff_of_true rfl ?_⟩
    · rintro (h | h) <;> linarith [hA.1, hA.2]
    · rintro ⟨hl, hr⟩
      linarith [hB hl]
    · rintro ⟨hl, hr⟩
      linarith
    · exact ⟨by linarith [hB (by linarith : (170 : ℚ) ≤ phi)], hA.1⟩

/-- C5 witness: the characterization instantiated at `phi = 45`. -/
theorem c5_visibility_witness :
    (is_evening_or_morning_simplified 45 = "none" ↔ ((45 : ℚ) < 10 ∨ (350 : ℚ) < 45)) ∧
    (is_evening_or_morning_simplified 45 = "both" ↔ ((170 : ℚ) ≤ 45 ∧ (45 : ℚ) ≤ 190)) ∧
    (is_evening_or_morning_simplified 45 = "evening" ↔ ((10 : ℚ) ≤ 45 ∧ (45 : ℚ) < 170)) ∧
    (is_evening_or_morning_simplified 45 = "morning" ↔ ((190 : ℚ) < 45 ∧ (45 : ℚ) ≤ 350)) :=
  c5_visibility_amended 45 (by norm_num) (by norm_num)

/-- C5 counterexample: at `phi = 10` (claimed `none`) the classifier returns
`evening`; at `phi = 350` (claimed `none`) it returns `morning`. -/
theorem c5_visibility_counterexample :
    is_evening_or_morning_simplified 10 = "evening" ∧
    is_evening_or_morning_simplified 350 = "morning" ∧
    (("evening" == "none") = false) ∧ (("morning" == "none") = false) := by
  refine ⟨?_, ?_, by decide, by decide⟩ <;> norm_num [is_evening_or_morning_simplified]

/-! ### Claim C6 -/

/-- C6 evidence: on the source's own reference date 727-03-15 the offline
pipeline yields `phi ≈ 163.81 < 165`, hence no hexagram, `is_pivot = false`
and `cycle_half = "upper"`, contradicting the claimed full-moon outputs. -/
theorem c6_reference_date_eval :
    lunar_phase_angle (julian_day 727 3 15) = 971270546843965027 / 5929225000000000 ∧
    lunar_phase_angle (julian_day 727 3 15) < 165 ∧
    (annotate_lunar_state 727 3 15).hexagram = none ∧
    (annotate_lunar_state 727 3 15).is_pivot = false ∧
    (annotate_lunar_state 727 3 15).cycle_half = "upper" := by
  have hjd : julian_day 727 3 15 = 3973327 / 2 := by
    unfold julian_day pytrunc
    norm_num
  have hphi : lunar_phase_angle (julian_day 727 3 15) =
      971270546843965027 / 5929225000000000 := by
    rw [hjd]
    unfold lunar_phase_angle pymod
    norm_num
  refine ⟨hphi, ?_, ?_, ?_, ?_⟩
  · rw [hphi]
    norm_num
  · rw [annotate_hexagram, hphi]
    norm_num [assign_nayin_hexagram]
  · rw [annotate_is_pivot, hphi]
    norm_num
  · rw [annotate_cycle_half, hphi]
    norm_num

/-! ### Claim C4 -/

/-- C4: for every Julian Day value `jd`, `lunar_phase_angle` returns exactly
`(moon mean longitude - sun mean longitude) mod 360`, and the result lies in
`[0, 360)`. -/
theorem c4_phase_angle_range (jd : ℚ) :
    0 ≤ lunar_phase_angle jd ∧ lunar_phase_angle jd < 360 ∧
    lunar_phase_angle jd =
      pymod (moon_mean_longitude jd - sun_mean_longitude jd) 360 := by
  refine ⟨?_, ?_, ?_⟩
  · simp only [lunar_phase_angle]
    exact pymod_nonneg _ (by norm_num)
  · simp only [lunar_phase_angle]
    exact pymod_lt _ (by norm_num)
  · simp only [lunar_phase_angle, moon_mean_longitude, sun_mean_longitude]
    exact pymod_sub_pymod _ _ (by norm_num)

/-! ### Claim C8: the Meeus formula on the adjusted (year, month) domain -/

lemma julian_day_adj (year month day : ℤ) :
    julian_day year month day =
      (pytrunc ((365.25 : ℚ) * ((adjY year month : ℚ) + 4716)) : ℚ)
        + (monthTerm (adjM month) : ℚ) + (day : ℚ)
        + ((2 - pytrunc ((adjY year month : ℚ) / 100)
            + pytrunc ((pytrunc ((adjY year month : ℚ) / 100) : ℚ) / 4) : ℤ) : ℚ)
        - 1524.5 := rfl

lemma pytrunc_of_nonneg {q : ℚ} (h : 0 ≤ q) : pytrunc q = ⌊q⌋ := if_pos h

lemma pytrunc_div100 (n : ℤ) (hn : 0 ≤ n) : pytrunc ((n : ℚ) / 100) = n / 100 := by
  have hq : (0 : ℚ) ≤ (n : ℚ) / 100 := by positivity
  rw [pytrunc_of_nonneg hq]
  have he : ((n : ℚ) / 100) = ((n : ℚ) / ((100 : ℕ) : ℚ)) := by norm_num
  rw [he, Rat.floor_intCast_div_natCast]
  norm_num

lemma pytrunc_div4 (n : ℤ) (hn : 0 ≤ n) : pytrunc ((n : ℚ) / 4) = n / 4 := by
  have hq : (0 : ℚ) ≤ (n : ℚ) / 4 := by positivity
  rw [pytrunc_of_nonneg hq]
  have he : ((n : ℚ) / 4) = ((n : ℚ) / ((4 : ℕ) : ℚ)) := by norm_num
  rw [he, Rat.floor_intCast_div_natCast]
  norm_num

lemma pytrunc_365 (n : ℤ) (hn : 0 ≤ n) :
    pytrunc ((365.25 : ℚ) * ((n : ℚ) + 4716)) = (1461 * (n + 4716)) / 4 := by
  have he : (365.25 : ℚ) * ((n : ℚ) + 4716)
      = ((1461 * (n + 4716) : ℤ) : ℚ) / ((4 : ℕ) : ℚ) := by
    push_cast
    ring_nf
  have hq : (0 : ℚ) ≤ (365.25 : ℚ) * ((n : ℚ) + 4716) := by
    have hn' : (0 : ℚ) ≤ (n : ℚ) := by exact_mod_cast hn
    nlinarith
  rw [pytrunc_of_nonneg hq, he, Rat.floor_intCast_div_natCast]
  norm_num

lemma julian_day_repr (year month day : ℤ) (hy : 0 ≤ adjY year month) :
    julian_day year month day =
      ((jdYearTerm (adjY year month) + monthTerm (adjM month) + day + 1722521 : ℤ) : ℚ)
        - 1524.5 := by
  rw [julian_day_adj, pytrunc_365 _ hy, pytrunc_div100 _ hy,
    pytrunc_div4 _ (Int.ediv_nonneg hy (by norm_num))]
  rw [sub_left_inj]
  have h1 : (1461 * (adjY year month + 4716)) / 4
      = 365 * adjY year month + adjY year month / 4 + 1722519 := by omega
  have h2 : adjY year month / 100 / 4 = adjY year month / 400 := by omega
  have hz : (1461 * (adjY year month + 4716)) / 4 + monthTerm (adjM month) + day
      + (2 - adjY year month / 100 + adjY year month / 100 / 4)
      = jdYearTerm (adjY year month) + monthTerm (adjM month) + day + 1722521 := by
    rw [h1, h2]
    unfold jdYearTerm
    omega
  push_cast
  exact_mod_cast congrArg (fun z : ℤ => (z : ℚ)) hz

lemma monthTerm_vals :
    monthTerm 3 = 122 ∧ monthTerm 4 = 153 ∧ monthTerm 5 = 183 ∧ monthTerm 6 = 214 ∧
    monthTerm 7 = 244 ∧ monthTerm 8 = 275 ∧ monthTerm 9 = 306 ∧ monthTerm 10 = 336 ∧
    monthTerm 11 = 367 ∧ monthTerm 12 = 397 ∧ monthTerm 13 = 428 ∧ monthTerm 14 = 459 := by
  refine ⟨?_, ?_, ?_, ?_, ?_, ?_, ?_, ?_, ?_, ?_, ?_, ?_⟩ <;>
    · unfold monthTerm pytrunc
      norm_num

lemma valid_adj_facts (y m d : ℤ) (h1 : 1 ≤ m) (h2 : m ≤ 12) (h3 : 1 ≤ d)
    (h4 : d ≤ daysInMonth y m) :
    3 ≤ adjM m ∧ adjM m ≤ 14 ∧
    (adjM m ≤ 13 → monthTerm (adjM m) + d ≤ monthTerm (adjM m + 1)) ∧
    (adjM m = 14 → (d ≤ 28 ∨ (d = 29 ∧ isLeap y))) := by
  obtain ⟨e3, e4, e5, e6, e7, e8, e9, e10, e11, e12, e13, e14⟩ := monthTerm_vals
  unfold daysInMonth at h4
  unfold adjM
  interval_cases m <;> by_cases hL : isLeap y <;> simp_all <;> omega

lemma monthTerm_bounds (b : ℤ) (h3 : 3 ≤ b) (h14 : b ≤ 14) :
    122 ≤ monthTerm b ∧ monthTerm b ≤ 459 := by
  obtain ⟨e3, e4, e5, e6, e7, e8, e9, e10, e11, e12, e13, e14⟩ := monthTerm_vals
  interval_cases b <;> omega

lemma monthTerm_mono (i j : ℤ) (h3 : 3 ≤ i) (hij : i ≤ j) (h14 : j ≤ 14) :
    monthTerm i ≤ monthTerm j := by
  obtain ⟨e3, e4, e5, e6, e7, e8, e9, e10, e11, e12, e13, e14⟩ := monthTerm_vals
  have hi14 : i ≤ 14 := le_trans hij h14
  interval_cases i <;> interval_cases j <;> omega

lemma jdYearTerm_step {a b : ℤ} (hab : a < b) : jdYearTerm a + 365 ≤ jdYearTerm b := by
  unfold jdYearTerm
  omega

lemma jdYearTerm_mono {a b : ℤ} (hab : a ≤ b) : jdYearTerm a ≤ jdYearTerm b := by
  unfold jdYearTerm
  omega

lemma jdYearTerm_leap {y : ℤ} (hl : isLeap y) :
    jdYearTerm (y - 1) + 366 ≤ jdYearTerm y := by
  unfold isLeap at hl
  unfold jdYearTerm
  omega

lemma adjY_nonneg {y m : ℤ} (hy : 1 ≤ y) : 0 ≤ adjY y m := by
  unfold adjY
  split_ifs <;> omega

lemma adjM_eq_14 {m : ℤ} (h1 : 1 ≤ m) (h2 : m ≤ 12) (h : adjM m = 14) : m = 2 := by
  unfold adjM at h
  split_ifs at h <;> omega

lemma adjY_feb {y m : ℤ} (h : m ≤ 2) : adjY y m = y - 1 := by
  unfold adjY
  rw [if_pos h]

lemma adj_lex {y1 m1 d1 y2 m2 d2 : ℤ} (hm11 : 1 ≤ m1) (hm12 : m1 ≤ 12)
    (hm21 : 1 ≤ m2) (hm22 : m2 ≤ 12) (h : DateEarlier y1 m1 d1 y2 m2 d2) :
    adjY y1 m1 < adjY y2 m2 ∨
      (adjY y1 m1 = adjY y2 m2 ∧ (adjM m1 < adjM m2 ∨ (adjM m1 = adjM m2 ∧ d1 < d2))) := by
  unfold DateEarlier at h
  unfold adjY adjM
  split_ifs <;> omega

/-- C8: restricted to years `≥ 1`, `julian_day` is strictly monotonic on
valid proleptic-Gregorian dates.  (On earlier years Python's
truncation-toward-zero `int()` breaks monotonicity, see the counterexample.) -/
theorem c8_monotone_amended (y1 m1 d1 y2 m2 d2 : ℤ)
    (hy1 : 1 ≤ y1) (hy2 : 1 ≤ y2)
    (hv1 : ValidDate y1 m1 d1) (hv2 : ValidDate y2 m2 d2)
    (hlt : DateEarlier y1 m1 d1 y2 m2 d2) :
    julian_day y1 m1 d1 < julian_day y2 m2 d2 := by
  unfold ValidDate at hv1 hv2
  obtain ⟨hm11, hm12, hd11, hd12⟩ := hv1
  obtain ⟨hm21, hm22, hd21, hd22⟩ := hv2
  have ha1 : 0 ≤ adjY y1 m1 := adjY_nonneg hy1
  have ha2 : 0 ≤ adjY y2 m2 := adjY_nonneg hy2
  rw [julian_day_repr y1 m1 d1 ha1, julian_day_repr y2 m2 d2 ha2,
    sub_lt_sub_iff_right, Int.cast_lt]
  obtain ⟨hb13, hb14, hstep1, hfeb1⟩ := valid_adj_facts y1 m1 d1 hm11 hm12 hd11 hd12
  obtain ⟨hb23, hb24, -, -⟩ := valid_adj_facts y2 m2 d2 hm21 hm22 hd21 hd22
  obtain ⟨hT2lo, -⟩ := monthTerm_bounds _ hb23 hb24
  obtain ⟨-, hT1hi⟩ := monthTerm_bounds _ hb13 hb14
  rcases adj_lex hm11 hm12 hm21 hm22 hlt with hA | ⟨hEq, hB | ⟨hBeq, hD⟩⟩
  · by_cases hfe : adjM m1 = 14 ∧ d1 = 29
    · have hm1eq : m1 = 2 := adjM_eq_14 hm11 hm12 hfe.1
      have hL : isLeap y1 := by
        rcases hfeb1 hfe.1 with h | h
        · omega
        · exact h.2
      have hA1 : adjY y1 m1 = y1 - 1 := adjY_feb (by omega)
      have hleap := jdYearTerm_leap hL
      have hmono : jdYearTerm y1 ≤ jdYearTerm (adjY y2 m2) :=
        jdYearTerm_mono (by omega)
      rw [hA1]
      omega
    · have hub : monthTerm (adjM m1) + d1 ≤ 487 := by
        by_cases h13 : adjM m1 ≤ 13
        · have hs := hstep1 h13
          have hb := monthTerm_bounds (adjM m1 + 1) (by omega) (by omega)
          omega
        · have h14 : adjM m1 = 14 := by omega
          rcases hfeb1 h14 with h | h
          · omega
          · exact absurd ⟨h14, h.1⟩ hfe
      have hstepF := jdYearTerm_step hA
      omega
  · have hs := hstep1 (by omega)
    have hmo := monthTerm_mono (adjM m1 + 1) (adjM m2) (by omega) (by omega) (by omega)
    rw [hEq]
    omega
  · rw [hEq, hBeq]
    omega

/-- C8 witness: 2020-02-29 precedes 2020-03-01 and gets the smaller Julian
day. -/
theorem c8_monotone_witness : julian_day 2020 2 29 < julian_day 2020 3 1 :=
  c8_monotone_amended 2020 2 29 2020 3 1 (by decide) (by decide)
    (by decide) (by decide) (by decide)

/-- C8 counterexample: the valid dates 28 Feb and 1 Mar of year `-99` get the
same Julian day, so `julian_day` is not strictly monotonic on all
proleptic-Gregorian dates. -/
theorem c8_monotone_counterexample :
    ValidDate (-99) 2 28 ∧ ValidDate (-99) 3 1 ∧ DateEarlier (-99) 2 28 (-99) 3 1 ∧
    julian_day (-99) 2 28 = julian_day (-99) 3 1 ∧
    julian_day (-99) 3 1 ≤ julian_day (-99) 2 28 := by
  have he1 : julian_day (-99) 2 28 = 3369919 / 2 := by
    unfold julian_day pytrunc
    norm_num [Int.ceil_neg]
  have he2 : julian_day (-99) 3 1 = 3369919 / 2 := by
    unfold julian_day pytrunc
    norm_num [Int.ceil_neg]
  refine ⟨by decide, by decide, by decide, ?_, ?_⟩
  · rw [he1, he2]
  · rw [he1, he2]
